import Mathlib

/-!
Verification of the rsconnect Python helper scripts
(`diagnose_py.py`, `pre_deploy_check_py.py`, `regenerate_manifest_py.py`,
`lib/py_utils.py`) against their natural-language specification.

The scripts are shallowly embedded: JSON values are an inductive type,
files read from disk are a `FileRead` state (missing / invalid / parsed),
Python functions become Lean functions, and code that can raise an
uncaught exception returns `Except Unit`.
-/

namespace Rsconnect

/-- JSON values as produced by Python `json.load`.  Objects are
association lists of fields in insertion order (Python dicts preserve
insertion order; `json.load` produces dicts with unique keys). -/
inductive Json where
  | null
  | bool (b : Bool)
  | num (n : Int)
  | str (s : String)
  | arr (elems : List Json)
  | obj (fields : List (String × Json))

/-- Python dict read `d.get(k)` / `d[k]` on an object modelled as an
association list: the value at the first matching key, if any. -/
def objGet (o : List (String × Json)) (k : String) : Option Json :=
  (o.find? (fun p => p.1 = k)).map Prod.snd

/-- Python dict write `d[k] = v`: replace the value at an existing key
in place (preserving insertion order), otherwise append the new pair. -/
def objSet : List (String × Json) → String → Json → List (String × Json)
  | [], k, v => [(k, v)]
  | p :: rest, k, v => if p.1 = k then (k, v) :: rest else p :: objSet rest k v

theorem objGet_objSet_self (o : List (String × Json)) (k : String) (v : Json) :
    objGet (objSet o k v) k = some v := by
  induction o with
  | nil => simp [objSet, objGet, List.find?]
  | cons p rest ih =>
    by_cases h : p.1 = k
    · simp [objSet, h, objGet, List.find?]
    · simpa [objSet, h, objGet, List.find?] using ih

theorem objGet_objSet_ne (o : List (String × Json)) (k k' : String) (v : Json)
    (h : k' ≠ k) : objGet (objSet o k v) k' = objGet o k' := by
  induction o with
  | nil => simp [objSet, objGet, List.find?, Ne.symm h]
  | cons p rest ih =>
    by_cases hp : p.1 = k
    · simp [objSet, hp, objGet, List.find?, Ne.symm h]
    · by_cases hp' : p.1 = k'
      · simp [objSet, hp, objGet, List.find?, hp', h]
      · simpa [objSet, hp, objGet, List.find?, hp'] using ih

theorem objGet_singleton (k : String) (v : Json) : objGet [(k, v)] k = some v := by
  simp [objGet, List.find?]

theorem objSet_objSet_self (o : List (String × Json)) (k : String) (v : Json) :
    objSet (objSet o k v) k v = objSet o k v := by
  induction o with
  | nil => simp [objSet]
  | cons p rest ih =>
    by_cases h : p.1 = k
    · simp [objSet, h]
    · simp [objSet, h, ih]

/-- State of a file on disk as far as a `json.load` caller can tell:
the file is missing, it exists but is not valid JSON, or it parses to
a JSON value. -/
inductive FileRead where
  | missing
  | invalid
  | parsed (j : Json)

/-- Whether `os.path.exists` sees the file. -/
def FileRead.exist : FileRead → Bool
  | .missing => false
  | _ => true

/-- `parse_manifest` (py_utils.py lines 133-139): `json.load` the file,
returning the parsed value, or `None` when the file is missing or the
JSON is invalid.  Python `None` and the JSON value `null` are the same
object, so a file whose content is `null` is indistinguishable from a
parse failure; the embedding collapses both to `none`. -/
def parse_manifest : FileRead → Option Json
  | .missing => none
  | .invalid => none
  | .parsed Json.null => none
  | .parsed j => some j

/-- Python `d.get(k, dflt)`: raises `AttributeError` (modelled as
`Except.error`) unless `d` is a dict; returns the stored value when the
key is present (even when that value is `null`), else the default. -/
def pyDictGet (j : Json) (k : String) (dflt : Json) : Except Unit Json :=
  match j with
  | Json.obj fields => Except.ok ((objGet fields k).getD dflt)
  | _ => Except.error ()

/-- Python truthiness of a JSON value. -/
def pyTruthy : Json → Bool
  | Json.null => false
  | Json.bool b => b
  | Json.num n => n != 0
  | Json.str s => s != ""
  | Json.arr l => !l.isEmpty
  | Json.obj f => !f.isEmpty

/-- `parse_manifest_python_version` (py_utils.py lines 142-151):
`manifest.get("python", {}).get("version")`, with `None` results
represented as `Json.null`. -/
def parse_manifest_python_version (file : FileRead) : Except Unit Json :=
  match parse_manifest file with
  | none => Except.ok Json.null
  | some m =>
    match pyDictGet m "python" (Json.obj []) with
    | Except.error e => Except.error e
    | Except.ok ps => pyDictGet ps "version" Json.null

/-- `get_manifest_content_type` (py_utils.py lines 154-160):
`metadata.get("content_type") or metadata.get("appmode")` with Python
`or` short-circuiting on truthiness. -/
def get_manifest_content_type (file : FileRead) : Except Unit Json :=
  match parse_manifest file with
  | none => Except.ok Json.null
  | some m =>
    match pyDictGet m "metadata" (Json.obj []) with
    | Except.error e => Except.error e
    | Except.ok md =>
      match pyDictGet md "content_type" Json.null with
      | Except.error e => Except.error e
      | Except.ok ct =>
        if pyTruthy ct then Except.ok ct else pyDictGet md "appmode" Json.null

/-- `get_manifest_entrypoint` (py_utils.py lines 163-169). -/
def get_manifest_entrypoint (file : FileRead) : Except Unit Json :=
  match parse_manifest file with
  | none => Except.ok Json.null
  | some m =>
    match pyDictGet m "metadata" (Json.obj []) with
    | Except.error e => Except.error e
    | Except.ok md => pyDictGet md "entrypoint" Json.null

/-- Python `"allow_uv" in pkg` followed by `pkg["allow_uv"]`
(py_utils.py lines 182-184).  On a dict this is a key lookup; on a
string `in` is a substring test and on a list it is membership, but the
subsequent string-key indexing then raises `TypeError`; on any other
value `in` itself raises `TypeError`. -/
def pyAllowUvLookup (pkg : Json) : Except Unit Json :=
  match pkg with
  | Json.obj fields =>
    match objGet fields "allow_uv" with
    | some v => Except.ok v
    | none => Except.ok Json.null
  | Json.str s =>
    if ("allow_uv".data).IsInfix s.data then Except.error () else Except.ok Json.null
  | Json.arr l =>
    if l.any (fun x => match x with | Json.str t => t = "allow_uv" | _ => false)
    then Except.error () else Except.ok Json.null
  | _ => Except.error ()

/-- `get_manifest_allow_uv` (py_utils.py lines 172-184). -/
def get_manifest_allow_uv (file : FileRead) : Except Unit Json :=
  match parse_manifest file with
  | none => Except.ok Json.null
  | some m =>
    match pyDictGet m "python" (Json.obj []) with
    | Except.error e => Except.error e
    | Except.ok ps =>
      match pyDictGet ps "package_manager" (Json.obj []) with
      | Except.error e => Except.error e
      | Except.ok pkg => pyAllowUvLookup pkg

/-- Outcome of one call to `patch_allow_uv`: either an uncaught Python
exception escaped (`raised`, with the resulting file state), or the
function returned `retval`, having written the file or not (`wrote`),
leaving the file in state `fileAfter`. -/
inductive PatchResult where
  | raised (fileAfter : FileRead)
  | ok (retval : Bool) (wrote : Bool) (fileAfter : FileRead)

/-- `patch_allow_uv` (regenerate_manifest_py.py lines 231-261).
Reads `manifest.json`; on `FileNotFoundError` / `JSONDecodeError`
returns `False` without touching the file.  When the top-level value
has no `python` entry (or a `null` one, since `dict.get` then yields
`None`) it returns `True` without writing.  Otherwise it inserts an
empty `package_manager` dict when that key is absent, sets
`allow_uv = True` inside it, and rewrites the file.  When the parsed
value is not a dict, or `python` / an existing `package_manager` is not
a dict, the attribute access or item assignment raises an uncaught
`AttributeError` / `TypeError` before the file is opened for writing,
so the file is left unchanged.  The `except OSError` branch around the
write (line 257) concerns write-time I/O failure and is not modelled:
the claims only concern successful writes and read failures. -/
def patch_allow_uv (file : FileRead) : PatchResult :=
  match file with
  | .missing => .ok false false file
  | .invalid => .ok false false file
  | .parsed m =>
    match m with
    | Json.obj fields =>
      match objGet fields "python" with
      | none => .ok true false file
      | some Json.null => .ok true false file
      | some (Json.obj pf) =>
        match objGet pf "package_manager" with
        | none =>
          let pf2 := objSet pf "package_manager" (Json.obj [("allow_uv", Json.bool true)])
          .ok true true (.parsed (Json.obj (objSet fields "python" (Json.obj pf2))))
        | some (Json.obj pmf) =>
          let pf2 := objSet pf "package_manager" (Json.obj (objSet pmf "allow_uv" (Json.bool true)))
          .ok true true (.parsed (Json.obj (objSet fields "python" (Json.obj pf2))))
        | some _ => .raised file
      | some _ => .raised file
    | _ => .raised file

/-- The file state after a `patch_allow_uv` call, successful or not. -/
def PatchResult.fileAfter : PatchResult → FileRead
  | .raised f => f
  | .ok _ _ f => f

/-- The value stored at `python.package_manager.allow_uv` in a manifest
value, read off the claim text: follow the three keys through nested
objects. -/
def storedAllowUv (m : Json) : Option Json :=
  match m with
  | Json.obj fields =>
    match objGet fields "python" with
    | some (Json.obj pf) =>
      match objGet pf "package_manager" with
      | some (Json.obj pmf) => objGet pmf "allow_uv"
      | _ => none
    | _ => none
  | _ => none

/-- C2: `patch_allow_uv` is an idempotent file patch.  For every
`manifest.json` parsing to a JSON object whose `python` field is an
object, either the call succeeds, a second call writes exactly the same
JSON value again (with `json.dump` called on equal values and fixed
arguments, the rewritten bytes are identical), and the patched file
stores `true` at `python.package_manager.allow_uv`; or the call raises
before writing (non-dict `package_manager`), leaving the file unchanged,
so a second call again leaves the file identical. -/
theorem patch_allow_uv_idempotent (fields pf : List (String × Json))
    (h : objGet fields "python" = some (Json.obj pf)) :
    (∃ m1, patch_allow_uv (.parsed (Json.obj fields)) = .ok true true (.parsed (Json.obj m1))
       ∧ patch_allow_uv (.parsed (Json.obj m1)) = .ok true true (.parsed (Json.obj m1))
       ∧ storedAllowUv (Json.obj m1) = some (Json.bool true))
    ∨ patch_allow_uv (.parsed (Json.obj fields)) = .raised (.parsed (Json.obj fields)) := by
  match hpm : objGet pf "package_manager" with
  | none =>
    left
    refine ⟨objSet fields "python"
      (Json.obj (objSet pf "package_manager" (Json.obj [("allow_uv", Json.bool true)]))), ?_, ?_, ?_⟩
    · simp [patch_allow_uv, h, hpm]
    · have h1 : objSet [("allow_uv", Json.bool true)] "allow_uv" (Json.bool true)
          = [("allow_uv", Json.bool true)] := by simp [objSet]
      simp only [patch_allow_uv, objGet_objSet_self, h1, objSet_objSet_self]
    · simp only [storedAllowUv, objGet_objSet_self, objGet_singleton]
  | some (Json.obj pmf) =>
    left
    refine ⟨objSet fields "python"
      (Json.obj (objSet pf "package_manager" (Json.obj (objSet pmf "allow_uv" (Json.bool true))))), ?_, ?_, ?_⟩
    · simp [patch_allow_uv, h, hpm]
    · simp only [patch_allow_uv, objGet_objSet_self, objSet_objSet_self]
    · simp only [storedAllowUv, objGet_objSet_self]
  | some Json.null => right; simp [patch_allow_uv, h, hpm]
  | some (Json.bool b) => right; simp [patch_allow_uv, h, hpm]
  | some (Json.num n) => right; simp [patch_allow_uv, h, hpm]
  | some (Json.str s) => right; simp [patch_allow_uv, h, hpm]
  | some (Json.arr l) => right; simp [patch_allow_uv, h, hpm]

/-- Witness for C2 at the concrete manifest
`{"python": {"version": "3.13.6"}}`. -/
theorem patch_allow_uv_idempotent_witness :
    (∃ m1, patch_allow_uv (.parsed (Json.obj [("python", Json.obj [("version", Json.str "3.13.6")])]))
         = .ok true true (.parsed (Json.obj m1))
       ∧ patch_allow_uv (.parsed (Json.obj m1)) = .ok true true (.parsed (Json.obj m1))
       ∧ storedAllowUv (Json.obj m1) = some (Json.bool true))
    ∨ patch_allow_uv (.parsed (Json.obj [("python", Json.obj [("version", Json.str "3.13.6")])]))
        = .raised (.parsed (Json.obj [("python", Json.obj [("version", Json.str "3.13.6")])])) :=
  patch_allow_uv_idempotent [("python", Json.obj [("version", Json.str "3.13.6")])]
    [("version", Json.str "3.13.6")] (by simp [objGet, List.find?])

/-- C8: `patch_allow_uv` touches nothing but
`python.package_manager.allow_uv`.  On a read failure it returns `False`
and leaves the file unchanged; when the `python` key is absent it
returns `True` without writing; when an exception escapes it has not
written either; and on a successful write every top-level key other than
`python`, every `python` key other than `package_manager`, and every
`package_manager` key other than `allow_uv` keeps its previous value. -/
theorem patch_allow_uv_frame :
    (patch_allow_uv .missing = .ok false false .missing
      ∧ patch_allow_uv .invalid = .ok false false .invalid)
    ∧ (∀ fields, objGet fields "python" = none →
         patch_allow_uv (.parsed (Json.obj fields)) = .ok true false (.parsed (Json.obj fields)))
    ∧ (∀ file f, patch_allow_uv file = .raised f → f = file)
    ∧ (∀ fields pf m1,
         objGet fields "python" = some (Json.obj pf) →
         patch_allow_uv (.parsed (Json.obj fields)) = .ok true true (.parsed (Json.obj m1)) →
         (∀ k, k ≠ "python" → objGet m1 k = objGet fields k)
         ∧ ∃ pf2, objGet m1 "python" = some (Json.obj pf2)
             ∧ (∀ k, k ≠ "package_manager" → objGet pf2 k = objGet pf k)
             ∧ ∃ pmf1, objGet pf2 "package_manager" = some (Json.obj pmf1)
                 ∧ objGet pmf1 "allow_uv" = some (Json.bool true)
                 ∧ (∀ pmf, objGet pf "package_manager" = some (Json.obj pmf) →
                      ∀ k, k ≠ "allow_uv" → objGet pmf1 k = objGet pmf k)) := by
  refine ⟨⟨rfl, rfl⟩, ?_, ?_, ?_⟩
  · intro fields h
    simp [patch_allow_uv, h]
  · intro file f hraise
    unfold patch_allow_uv at hraise
    repeat' split at hraise
    all_goals simp_all
  · intro fields pf m1 h hsucc
    match hpm : objGet pf "package_manager" with
    | none =>
      simp only [patch_allow_uv, h, hpm] at hsucc
      rw [PatchResult.ok.injEq] at hsucc
      obtain ⟨-, -, hfile⟩ := hsucc
      rw [FileRead.parsed.injEq, Json.obj.injEq] at hfile
      subst hfile
      refine ⟨fun k hk => objGet_objSet_ne _ _ _ _ hk, _, objGet_objSet_self _ _ _,
        fun k hk => objGet_objSet_ne _ _ _ _ hk, _, objGet_objSet_self _ _ _,
        objGet_singleton _ _, ?_⟩
      intro pmf hpmf
      simp at hpmf
    | some (Json.obj pmf) =>
      simp only [patch_allow_uv, h, hpm] at hsucc
      rw [PatchResult.ok.injEq] at hsucc
      obtain ⟨-, -, hfile⟩ := hsucc
      rw [FileRead.parsed.injEq, Json.obj.injEq] at hfile
      subst hfile
      refine ⟨fun k hk => objGet_objSet_ne _ _ _ _ hk, _, objGet_objSet_self _ _ _,
        fun k hk => objGet_objSet_ne _ _ _ _ hk, _, objGet_objSet_self _ _ _,
        objGet_objSet_self _ _ _, ?_⟩
      intro pmf' hpmf k hk
      rw [Option.some.injEq, Json.obj.injEq] at hpmf
      subst hpmf
      exact objGet_objSet_ne _ _ _ _ hk
    | some Json.null => simp [patch_allow_uv, h, hpm] at hsucc
    | some (Json.bool b) => simp [patch_allow_uv, h, hpm] at hsucc
    | some (Json.num n) => simp [patch_allow_uv, h, hpm] at hsucc
    | some (Json.str s) => simp [patch_allow_uv, h, hpm] at hsucc
    | some (Json.arr l) => simp [patch_allow_uv, h, hpm] at hsucc

/-- Witness for C8: a missing file is reported as failure and untouched,
and a manifest without a `python` section is returned successfully
without a write. -/
theorem patch_allow_uv_frame_witness :
    patch_allow_uv .missing = .ok false false .missing
    ∧ patch_allow_uv (.parsed (Json.obj [("files", Json.num 1)]))
        = .ok true false (.parsed (Json.obj [("files", Json.num 1)])) :=
  ⟨patch_allow_uv_frame.1.1,
   patch_allow_uv_frame.2.1 [("files", Json.num 1)] (by simp [objGet, List.find?])⟩

/-- Python `str.isspace` characters, restricted to the ASCII range that
`str.strip()` is exercised on here; Python additionally strips rare
Unicode space characters, which no input in these scripts contains. -/
def pyIsSpace (c : Char) : Bool :=
  c = ' ' || c = '\t' || c = '\n' || c = '\x0d' || c = '\x0b' || c = '\x0c'

/-- Python `s.strip()`: drop leading and trailing whitespace. -/
def pyStrip (s : String) : String :=
  ⟨((s.data.dropWhile pyIsSpace).reverse.dropWhile pyIsSpace).reverse⟩

/-- Python `s.startswith(p)`. -/
def pyStartsWith (s p : String) : Bool :=
  p.data.isPrefixOf s.data

/-- Python `s.split(sep)` for a single-character separator, on the
character list: splitting never drops empty fields and always returns at
least one (possibly empty) field. -/
def splitOnChar (c : Char) : List Char → List (List Char)
  | [] => [[]]
  | x :: xs =>
    if x = c then [] :: splitOnChar c xs
    else
      match splitOnChar c xs with
      | [] => [[x]]
      | h :: t => (x :: h) :: t

/-- Python `s.split(sep)` for a single-character separator. -/
def pySplitChar (c : Char) (s : String) : List String :=
  (splitOnChar c s.data).map String.mk

theorem mem_of_mem_splitOnChar (c : Char) (l : List Char) (a : Char) :
    ∀ p ∈ splitOnChar c l, a ∈ p → a ∈ l := by
  induction l with
  | nil =>
    intro p hp ha
    simp [splitOnChar] at hp
    subst hp
    simp at ha
  | cons x xs ih =>
    intro p hp ha
    by_cases hx : x = c
    · simp only [splitOnChar, if_pos hx, List.mem_cons] at hp
      rcases hp with hp | hp
      · subst hp; simp at ha
      · exact List.mem_cons_of_mem _ (ih p hp ha)
    · simp only [splitOnChar, if_neg hx] at hp
      rcases hsp : splitOnChar c xs with _ | ⟨h0, t⟩
      · rw [hsp] at hp
        simp at hp
        subst hp
        exact List.mem_cons.mpr (Or.inl (by simpa using ha))
      · rw [hsp] at hp
        rcases List.mem_cons.mp hp with hp' | hp'
        · subst hp'
          rcases List.mem_cons.mp ha with ha' | ha'
          · exact ha' ▸ List.mem_cons_self x xs
          · exact List.mem_cons_of_mem _ (ih h0 (hsp ▸ List.mem_cons_self h0 t) ha')
        · exact List.mem_cons_of_mem _ (ih p (hsp ▸ List.mem_cons_of_mem h0 hp') ha)

/-- Python `str.isdigit` on one character: true for characters of
Unicode numeric type Digit or Decimal.  Modelled over the code points
the scripts and claims exercise: the ASCII decimal digits, plus the
Latin-1 superscript digits, which Python accepts although they are not
decimal digits.  (Digit characters beyond Latin-1 are out of scope of
this embedding.) -/
def pyCharIsDigit (c : Char) : Bool :=
  c.isDigit || c = '¹' || c = '²' || c = '³'

/-- Python `s.isdigit()`: nonempty and all characters digits. -/
def pyStrIsDigit (s : String) : Bool :=
  s != "" && s.data.all pyCharIsDigit

/-- `is_exact_python_version` (py_utils.py lines 253-259):
`parts = version.split("."); len(parts) >= 3 and all(p.isdigit() for p
in parts[:3])`. -/
def is_exact_python_version (version : String) : Bool :=
  let parts := pySplitChar '.' version
  decide (3 ≤ parts.length) && (parts.take 3).all pyStrIsDigit

/-- The claim C4 reading of `is_exact_python_version`: at least three
dot-separated components whose first three are nonempty strings of
decimal digits `0`-`9`. -/
def is_exact_python_version_claim (version : String) : Bool :=
  let parts := pySplitChar '.' version
  decide (3 ≤ parts.length) && (parts.take 3).all (fun p => p != "" && p.data.all Char.isDigit)

theorem all_congr_of_mem {α : Type} {l : List α} {f g : α → Bool}
    (h : ∀ a ∈ l, f a = g a) : l.all f = l.all g := by
  induction l with
  | nil => rfl
  | cons a t ih =>
    simp only [List.all_cons, h a (List.mem_cons_self a t),
      ih (fun b hb => h b (List.mem_cons_of_mem a hb))]

/-- C4, counterexample: on `"3.¹.0"` (superscript one, U+00B9) the first
three components are not strings of decimal digits, so the claim
predicts `False`, but Python `str.isdigit` accepts superscript digits,
so `is_exact_python_version` returns `True`. -/
theorem is_exact_python_version_counterexample :
    is_exact_python_version "3.¹.0" = true
    ∧ is_exact_python_version_claim "3.¹.0" = false := by
  exact ⟨by decide, by decide⟩

/-- C4, amended: `is_exact_python_version` returns `True` exactly when
the string split on `.` has at least three components whose first three
are nonempty and consist solely of characters accepted by Python
`str.isdigit` — the decimal digits `0`-`9` together with other Unicode
digit characters such as the superscript digits.  Restricted to strings
of ASCII characters, this coincides with the claim's decimal-digit
reading. -/
theorem is_exact_python_version_ascii (v : String)
    (h : ∀ a ∈ v.data, a.toNat < 128) :
    is_exact_python_version v = is_exact_python_version_claim v := by
  have hparts : ∀ p ∈ (pySplitChar '.' v).take 3,
      pyStrIsDigit p = (p != "" && p.data.all Char.isDigit) := by
    intro p hpmem
    have hpmem' : p ∈ pySplitChar '.' v := List.mem_of_mem_take hpmem
    unfold pyStrIsDigit
    have hall : p.data.all pyCharIsDigit = p.data.all Char.isDigit := by
      apply all_congr_of_mem
      intro a hamem
      have hin : a ∈ v.data := by
        rcases List.mem_map.mp hpmem' with ⟨pl, hpl, rfl⟩
        exact mem_of_mem_splitOnChar '.' v.data a pl hpl hamem
      have hlt := h a hin
      have h1 : (a = '¹') = False := by
        simp only [eq_iff_iff, iff_false]
        intro hEq; rw [hEq] at hlt; exact absurd hlt (by decide)
      have h2 : (a = '²') = False := by
        simp only [eq_iff_iff, iff_false]
        intro hEq; rw [hEq] at hlt; exact absurd hlt (by decide)
      have h3 : (a = '³') = False := by
        simp only [eq_iff_iff, iff_false]
        intro hEq; rw [hEq] at hlt; exact absurd hlt (by decide)
      simp [pyCharIsDigit, h1, h2, h3]
    rw [hall]
  simp only [is_exact_python_version, is_exact_python_version_claim]
  congr 1
  exact all_congr_of_mem hparts

/-- Witness for C4 at `"3.13.6"` (an ASCII string). -/
theorem is_exact_python_version_ascii_witness :
    is_exact_python_version "3.13.6" = is_exact_python_version_claim "3.13.6" :=
  is_exact_python_version_ascii "3.13.6" (by decide)

/-- `get_requirements_packages` (py_utils.py lines 187-202): iterate the
lines of `requirements.txt`, strip each, skip blank / comment / option
lines, append the rest; a missing file yields the empty list via the
caught `FileNotFoundError`.  The file is `none` when missing, otherwise
its list of lines. -/
def get_requirements_packages (file : Option (List String)) : List String :=
  match file with
  | none => []
  | some lines =>
    lines.foldl
      (fun packages line =>
        let l := pyStrip line
        if l == "" || pyStartsWith l "#" || pyStartsWith l "-" then packages
        else packages ++ [l]) []

theorem get_requirements_foldl_eq (lines : List String) (acc : List String) :
    lines.foldl
      (fun packages line =>
        let l := pyStrip line
        if l == "" || pyStartsWith l "#" || pyStartsWith l "-" then packages
        else packages ++ [l]) acc
    = acc ++ (lines.map pyStrip).filter
        (fun l => !(l == "" || pyStartsWith l "#" || pyStartsWith l "-")) := by
  induction lines generalizing acc with
  | nil => simp
  | cons line rest ih =>
    rw [List.foldl_cons, ih, List.map_cons, List.filter_cons]
    cases hc : (pyStrip line == "" || pyStartsWith (pyStrip line) "#"
        || pyStartsWith (pyStrip line) "-") with
    | true => simp [hc]
    | false => simp [hc, List.append_assoc]

/-- C5: `get_requirements_packages` returns, in file order, exactly the
stripped lines that are nonempty and start with neither `#` nor `-`;
a missing file gives the empty list (the `FileNotFoundError` is
caught). -/
theorem get_requirements_packages_characterisation (file : Option (List String)) :
    get_requirements_packages file =
      match file with
      | none => []
      | some lines =>
        (lines.map pyStrip).filter
          (fun l => !(l == "" || pyStartsWith l "#" || pyStartsWith l "-")) := by
  match file with
  | none => rfl
  | some lines =>
    have h := get_requirements_foldl_eq lines []
    rw [List.nil_append] at h
    exact h

/-- Unicode check mark (py_utils.py line 35). -/
def SYM_CHECK : String := "✓"

/-- Unicode cross mark (py_utils.py line 36). -/
def SYM_CROSS : String := "✗"

/-- Unicode warning sign (py_utils.py line 37). -/
def SYM_WARN : String := "⚠"

/-- Python `s * n` for a string and an int: `n` copies, empty when
`n <= 0`. -/
def strRepeat (s : String) (n : Int) : String :=
  ⟨(List.replicate n.toNat s.data).flatten⟩

/-- Python `s[:stop]`: the first `stop` characters when `stop >= 0`
(clamped to the length), all but the last `-stop` characters when
`stop < 0`. -/
def pySliceTo (s : String) (stop : Int) : String :=
  if stop < 0 then ⟨s.data.take (s.data.length - min s.data.length (-stop).toNat)⟩
  else ⟨s.data.take stop.toNat⟩

/-- `box_header` (py_utils.py lines 40-49): the five lines printed — a
blank line, the top border, the title row (title truncated to
`width - 4` and padded), the bottom border, and a final blank line. -/
def box_header (title : String) (width : Int) : List String :=
  let t := pySliceTo title (width - 4)
  let padding := width - (t.length : Int) - 4
  ["",
   "╔" ++ strRepeat "═" (width - 2) ++ "╗",
   "║  " ++ t ++ strRepeat " " padding ++ "║",
   "╚" ++ strRepeat "═" (width - 2) ++ "╝",
   ""]

/-- `box_result` (py_utils.py lines 52-62): the four lines printed — a
blank line, the top border, the message row, and the bottom border. -/
def box_result (success : Bool) (width : Int) : List String :=
  let msg := if success then SYM_CHECK ++ " READY TO DEPLOY" else SYM_CROSS ++ " ISSUES FOUND"
  let padding := max 0 (width - (msg.length : Int) - 4)
  ["",
   "╔" ++ strRepeat "═" (width - 2) ++ "╗",
   "║  " ++ msg ++ strRepeat " " padding ++ "║",
   "╚" ++ strRepeat "═" (width - 2) ++ "╝"]

theorem string_length_append (a b : String) : (a ++ b).length = a.length + b.length := by
  cases a with
  | mk da =>
    cases b with
    | mk db => simp [String.length, String.append]

theorem strRepeat_length (s : String) (n : Int) :
    (strRepeat s n).length = n.toNat * s.length := by
  show (List.replicate n.toNat s.data).flatten.length = n.toNat * s.data.length
  induction n.toNat with
  | zero => simp
  | succ k ih => simp [List.replicate_succ, ih, Nat.succ_mul, Nat.add_comm]

theorem pySliceTo_nonneg_length (s : String) (stop : Int) (h : ¬stop < 0) :
    (pySliceTo s stop).length = min stop.toNat s.length := by
  unfold pySliceTo
  rw [if_neg h]
  show (s.data.take stop.toNat).length = _
  rw [List.length_take]
  rfl

/-- C7: at the default width of 40, every box line printed by
`box_header` is exactly 40 characters for every title, and every box
line printed by `box_result` is exactly 40 characters for both success
values (the blank separator lines have length 0). -/
theorem box_lines_width (title : String) (success : Bool) :
    (box_header title 40).map String.length = [0, 40, 40, 40, 0]
    ∧ (box_result success 40).map String.length = [0, 40, 40, 40] := by
  constructor
  · simp only [box_header, List.map]
    have ht : (pySliceTo title (40 - 4)).length = min (36 : Nat) title.length := by
      rw [pySliceTo_nonneg_length title (40 - 4) (by norm_num)]
      rfl
    have hmid : ("║  " ++ pySliceTo title (40 - 4)
        ++ strRepeat " " (40 - ((pySliceTo title (40 - 4)).length : Int) - 4)
        ++ "║").length = 40 := by
      rw [string_length_append, string_length_append, string_length_append,
        strRepeat_length, ht]
      have h36 : min (36 : Nat) title.length ≤ 36 := Nat.min_le_left _ _
      have htoNat : (40 - ((min (36 : Nat) title.length : Nat) : Int) - 4).toNat
          = 36 - min (36 : Nat) title.length := by omega
      rw [htoNat]
      show 3 + min 36 title.length + (36 - min 36 title.length) * 1 + 1 = 40
      omega
    rw [hmid]
    norm_num
    exact ⟨by decide, by decide⟩
  · cases success <;> rfl

/-- `".".join(v.split(".")[:2])`: the major.minor prefix used by both
scripts (diagnose_py.py lines 173-174, pre_deploy_check_py.py lines
136-137). -/
def majorMinor (v : String) : String :=
  String.intercalate "." ((pySplitChar '.' v).take 2)

/-- Which branch of the diagnose version check fires. -/
inductive DiagVersionCheck where
  | mismatch
  | patchMismatch
  | noIssue
deriving DecidableEq

/-- The version match check of diagnose_py.py lines 172-184, run when
both a manifest Python version and a local version are available:
compare major.minor prefixes first, then the full strings. -/
def diagnose_version_result (manifest_ver local_ver : String) : DiagVersionCheck :=
  if majorMinor manifest_ver ≠ majorMinor local_ver then .mismatch
  else if manifest_ver ≠ local_ver then .patchMismatch
  else .noIssue

/-- The issue strings diagnose_py.py appends for the version check. -/
def diagnose_version_issues (manifest_ver local_ver : String) : List String :=
  match diagnose_version_result manifest_ver local_ver with
  | .mismatch =>
    ["Python version mismatch (local " ++ majorMinor local_ver
      ++ " vs manifest " ++ majorMinor manifest_ver ++ ")"]
  | .patchMismatch =>
    ["Python patch mismatch — Posit Connect requires an exact patch version in manifest.json"]
  | .noIssue => []

/-- Which branch of pre-deploy Check 7 fires. -/
inductive PreVersionCheck where
  | exactMatch
  | minorMatch
  | warn
deriving DecidableEq

/-- The version match logic of pre_deploy_check_py.py lines 131-145 for
two available version strings: exact equality first, then a major.minor
comparison; only the final branch records a warning. -/
def pre_deploy_version_result (manifest_ver local_ver : String) : PreVersionCheck :=
  if manifest_ver = local_ver then .exactMatch
  else if majorMinor manifest_ver = majorMinor local_ver then .minorMatch
  else .warn

/-- The warning strings pre_deploy_check_py.py appends for Check 7. -/
def pre_deploy_version_warnings (manifest_ver local_ver : String) : List String :=
  match pre_deploy_version_result manifest_ver local_ver with
  | .warn =>
    ["Python version mismatch (local " ++ majorMinor local_ver
      ++ " vs manifest " ++ majorMinor manifest_ver ++ ") — regenerate manifest if intentional"]
  | _ => []

/-- C3: with both versions available, diagnose records a
version-mismatch issue exactly when the major.minor prefixes differ, a
patch-mismatch issue exactly when the prefixes agree but the strings
differ, and nothing when the strings are equal; pre-deploy Check 7
records its version-mismatch warning exactly when the major.minor
prefixes differ. -/
theorem version_check_characterisation (m l : String) :
    (diagnose_version_result m l = .mismatch ↔ majorMinor m ≠ majorMinor l)
    ∧ (diagnose_version_result m l = .patchMismatch ↔ (majorMinor m = majorMinor l ∧ m ≠ l))
    ∧ (diagnose_version_result m l = .noIssue ↔ m = l)
    ∧ (pre_deploy_version_warnings m l ≠ [] ↔ majorMinor m ≠ majorMinor l) := by
  unfold diagnose_version_result pre_deploy_version_warnings pre_deploy_version_result
  by_cases hmm : majorMinor m = majorMinor l
  · by_cases hv : m = l
    · simp [hmm, hv]
    · simp [hmm, hv]
  · have hv : m ≠ l := fun hEq => hmm (hEq ▸ rfl)
    simp [hmm, hv]

/-- The fields of a Python `subprocess.CompletedProcess` the scripts
use: the command, its exit status, and the captured text streams
(`none` when the stream was not captured). -/
structure CompletedProcess where
  args : List String
  returncode : Int
  stdout : Option String
  stderr : Option String
deriving DecidableEq

/-- `subprocess.run(cmd, capture_output=capture, text=True, check=check)`
as documented: `osExec` is the operating system, giving each command its
exit status and output text; `subprocess.run` raises
`CalledProcessError` exactly when `check` is set and the exit status is
nonzero, and otherwise returns the `CompletedProcess`. -/
def subprocess_run (osExec : List String → Int × String × String)
    (cmd : List String) (captureOutput text check : Bool) :
    Except Unit CompletedProcess :=
  let rc := (osExec cmd).1
  let f : String → Option String := fun out => if captureOutput then some out else none
  let cp : CompletedProcess :=
    ⟨cmd, rc, f (osExec cmd).2.1, f (osExec cmd).2.2⟩
  let _ := text
  if check && rc != 0 then Except.error () else Except.ok cp

/-- `run_command` (py_utils.py lines 120-130): despite its docstring,
it calls `subprocess.run` with `check=False`. -/
def run_command (osExec : List String → Int × String × String)
    (cmd : List String) (capture : Bool) : Except Unit CompletedProcess :=
  subprocess_run osExec cmd capture true false

/-- C9: `run_command` never raises, whatever the exit status: for every
command and operating-system behaviour it returns the
`CompletedProcess` carrying the actual return code and the captured
text streams, because it passes `check=False` — contrary to its own
docstring — so callers must inspect `returncode` themselves. -/
theorem run_command_never_raises (osExec : List String → Int × String × String)
    (cmd : List String) (capture : Bool) :
    run_command osExec cmd capture =
      Except.ok ⟨cmd, (osExec cmd).1,
        if capture then some (osExec cmd).2.1 else none,
        if capture then some (osExec cmd).2.2 else none⟩ := by
  simp [run_command, subprocess_run]

/-- C6, counterexample: the file content `[]` is valid JSON, so
`parse_manifest` returns the parsed list, and
`parse_manifest_python_version` then calls `.get` on a list, raising
`AttributeError` instead of returning a value. -/
theorem manifest_reader_raises_counterexample :
    parse_manifest_python_version (.parsed (Json.arr [])) = Except.error () := rfl

/-- A sufficient condition on the manifest file for the derived readers
to be exception-free: the file is missing, invalid, or parses to `null`
or to an object whose `python`, `metadata` and
`python.package_manager` fields, when present, are themselves objects.
Sufficient, not necessary: for example a string-valued
`package_manager` makes the `"allow_uv" in pkg` substring test return
`False`, and `get_manifest_allow_uv` returns `None` without raising
(`pyAllowUvLookup (Json.str "pip") = Except.ok Json.null` in this
model). -/
def absentOrObj (o : Option Json) : Bool :=
  match o with
  | none => true
  | some (Json.obj _) => true
  | some _ => false

def safeManifestShape (file : FileRead) : Bool :=
  match file with
  | .missing => true
  | .invalid => true
  | .parsed Json.null => true
  | .parsed (Json.obj fields) =>
    absentOrObj (objGet fields "python")
    && absentOrObj (objGet fields "metadata")
    && (match objGet fields "python" with
        | some (Json.obj pf) => absentOrObj (objGet pf "package_manager")
        | _ => true)
  | .parsed _ => false

/-- C6, amended: `parse_manifest` returns `None` when the file is
missing or its JSON is invalid, and the derived readers
(`parse_manifest_python_version`, `get_manifest_content_type`,
`get_manifest_entrypoint`, `get_manifest_allow_uv`) return a value
without raising for every file content satisfying
`safeManifestShape`: missing, invalid, or parsing to `null` or to an
object whose `python`, `metadata` and `python.package_manager` fields,
when present, are themselves objects.  This restriction of the claim
is what the counterexample forces: the readers do not return a value
on every possible file content — the valid JSON text `[]` makes each
of them raise `AttributeError`.  The shape is a sufficient condition
only; some contents outside it also return without raising. -/
theorem pyAllowUvLookup_obj (o : List (String × Json)) :
    pyAllowUvLookup (Json.obj o) = Except.ok ((objGet o "allow_uv").getD Json.null) := by
  cases h : objGet o "allow_uv" <;> simp [pyAllowUvLookup, h]

theorem exists_ok_ite {c : Prop} [Decidable c] (a b : Json) :
    ∃ v, (if c then Except.ok a else (Except.ok b : Except Unit Json)) = Except.ok v := by
  by_cases h : c
  · exact ⟨a, if_pos h⟩
  · exact ⟨b, if_neg h⟩

theorem parse_manifest_python_version_obj (fields : List (String × Json)) :
    parse_manifest_python_version (.parsed (Json.obj fields))
      = pyDictGet ((objGet fields "python").getD (Json.obj [])) "version" Json.null := rfl

theorem get_manifest_content_type_obj (fields : List (String × Json)) :
    get_manifest_content_type (.parsed (Json.obj fields))
      = (match pyDictGet ((objGet fields "metadata").getD (Json.obj [])) "content_type" Json.null with
         | Except.error e => Except.error e
         | Except.ok ct =>
           if pyTruthy ct then Except.ok ct
           else pyDictGet ((objGet fields "metadata").getD (Json.obj [])) "appmode" Json.null) := rfl

theorem get_manifest_entrypoint_obj (fields : List (String × Json)) :
    get_manifest_entrypoint (.parsed (Json.obj fields))
      = pyDictGet ((objGet fields "metadata").getD (Json.obj [])) "entrypoint" Json.null := rfl

theorem get_manifest_allow_uv_obj (fields : List (String × Json)) :
    get_manifest_allow_uv (.parsed (Json.obj fields))
      = (match pyDictGet ((objGet fields "python").getD (Json.obj [])) "package_manager" (Json.obj []) with
         | Except.error e => Except.error e
         | Except.ok pkg => pyAllowUvLookup pkg) := rfl

theorem manifest_readers_total (file : FileRead) (h : safeManifestShape file = true) :
    parse_manifest .missing = none
    ∧ parse_manifest .invalid = none
    ∧ (∃ v, parse_manifest_python_version file = Except.ok v)
    ∧ (∃ v, get_manifest_content_type file = Except.ok v)
    ∧ (∃ v, get_manifest_entrypoint file = Except.ok v)
    ∧ (∃ v, get_manifest_allow_uv file = Except.ok v) := by
  match file with
  | .missing => exact ⟨rfl, rfl, ⟨_, rfl⟩, ⟨_, rfl⟩, ⟨_, rfl⟩, ⟨_, rfl⟩⟩
  | .invalid => exact ⟨rfl, rfl, ⟨_, rfl⟩, ⟨_, rfl⟩, ⟨_, rfl⟩, ⟨_, rfl⟩⟩
  | .parsed Json.null => exact ⟨rfl, rfl, ⟨_, rfl⟩, ⟨_, rfl⟩, ⟨_, rfl⟩, ⟨_, rfl⟩⟩
  | .parsed (Json.bool b) => simp [safeManifestShape] at h
  | .parsed (Json.num n) => simp [safeManifestShape] at h
  | .parsed (Json.str s) => simp [safeManifestShape] at h
  | .parsed (Json.arr l) => simp [safeManifestShape] at h
  | .parsed (Json.obj fields) =>
    simp only [safeManifestShape, Bool.and_eq_true] at h
    obtain ⟨⟨hpy, hmd⟩, hpm2⟩ := h
    refine ⟨rfl, rfl, ?_, ?_, ?_, ?_⟩
    · rw [parse_manifest_python_version_obj]
      match hp : objGet fields "python" with
      | none => exact ⟨_, rfl⟩
      | some (Json.obj pf) => exact ⟨_, rfl⟩
      | some Json.null => rw [hp] at hpy; simp [absentOrObj] at hpy
      | some (Json.bool b) => rw [hp] at hpy; simp [absentOrObj] at hpy
      | some (Json.num n) => rw [hp] at hpy; simp [absentOrObj] at hpy
      | some (Json.str s) => rw [hp] at hpy; simp [absentOrObj] at hpy
      | some (Json.arr l) => rw [hp] at hpy; simp [absentOrObj] at hpy
    · rw [get_manifest_content_type_obj]
      match hm : objGet fields "metadata" with
      | none => exact exists_ok_ite _ _
      | some (Json.obj mdf) => exact exists_ok_ite _ _
      | some Json.null => rw [hm] at hmd; simp [absentOrObj] at hmd
      | some (Json.bool b) => rw [hm] at hmd; simp [absentOrObj] at hmd
      | some (Json.num n) => rw [hm] at hmd; simp [absentOrObj] at hmd
      | some (Json.str s) => rw [hm] at hmd; simp [absentOrObj] at hmd
      | some (Json.arr l) => rw [hm] at hmd; simp [absentOrObj] at hmd
    · rw [get_manifest_entrypoint_obj]
      match hm : objGet fields "metadata" with
      | none => exact ⟨_, rfl⟩
      | some (Json.obj mdf) => exact ⟨_, rfl⟩
      | some Json.null => rw [hm] at hmd; simp [absentOrObj] at hmd
      | some (Json.bool b) => rw [hm] at hmd; simp [absentOrObj] at hmd
      | some (Json.num n) => rw [hm] at hmd; simp [absentOrObj] at hmd
      | some (Json.str s) => rw [hm] at hmd; simp [absentOrObj] at hmd
      | some (Json.arr l) => rw [hm] at hmd; simp [absentOrObj] at hmd
    · rw [get_manifest_allow_uv_obj]
      match hp : objGet fields "python" with
      | none => exact ⟨_, rfl⟩
      | some (Json.obj pf) =>
        rw [hp] at hpm2
        simp only [] at hpm2
        show ∃ v, pyAllowUvLookup ((objGet pf "package_manager").getD (Json.obj []))
          = Except.ok v
        match hpm : objGet pf "package_manager" with
        | none => exact ⟨_, rfl⟩
        | some (Json.obj pmf) => exact ⟨_, by rw [Option.getD_some, pyAllowUvLookup_obj]⟩
        | some Json.null => rw [hpm] at hpm2; simp [absentOrObj] at hpm2
        | some (Json.bool b) => rw [hpm] at hpm2; simp [absentOrObj] at hpm2
        | some (Json.num n) => rw [hpm] at hpm2; simp [absentOrObj] at hpm2
        | some (Json.str s) => rw [hpm] at hpm2; simp [absentOrObj] at hpm2
        | some (Json.arr l) => rw [hpm] at hpm2; simp [absentOrObj] at hpm2
      | some Json.null => rw [hp] at hpy; simp [absentOrObj] at hpy
      | some (Json.bool b) => rw [hp] at hpy; simp [absentOrObj] at hpy
      | some (Json.num n) => rw [hp] at hpy; simp [absentOrObj] at hpy
      | some (Json.str s) => rw [hp] at hpy; simp [absentOrObj] at hpy
      | some (Json.arr l) => rw [hp] at hpy; simp [absentOrObj] at hpy

/-- Witness for C6 at the empty JSON object `{}`. -/
theorem manifest_readers_total_witness :
    ∃ v, parse_manifest_python_version (.parsed (Json.obj [])) = Except.ok v :=
  (manifest_readers_total (.parsed (Json.obj [])) (by decide)).2.2.1

/-- `get_python_version_file` (py_utils.py lines 262-273): the stripped
content of `.python-version`, or `None` when the file is missing or
blank.  The argument is the raw file content (`none` = missing). -/
def get_python_version_file (content : Option String) : Option String :=
  match content with
  | none => none
  | some s =>
    let version := pyStrip s
    if version = "" then none else some version

/-- `get_local_python_version` (py_utils.py lines 378-393):
`.python-version` content when present and nonempty, else the running
interpreter version string `major.minor.micro`. -/
def get_local_python_version (pvFileContent : Option String) (interp : String) : String :=
  match get_python_version_file pvFileContent with
  | some v => v
  | none => interp

/-- `re.sub(r"[^a-zA-Z0-9._-]", "-", project_name).lower().strip("-")`
(py_utils.py line 330).  The character class is ASCII, and every kept
character is ASCII, so ASCII lowercasing is faithful. -/
def sanitize_project_name (name : String) : String :=
  let subbed := name.data.map (fun c =>
    if c.isAlphanum || c = '.' || c = '_' || c = '-' then c else '-')
  let lowered := subbed.map Char.toLower
  ⟨((lowered.dropWhile (fun c => c = '-')).reverse.dropWhile (fun c => c = '-')).reverse⟩

/-- `re.sub(r"==(\d)", r">=\1", spec)` (py_utils.py line 372): rewrite
every `==` directly followed by a digit to `>=`, scanning left to right
without overlap. -/
def subEqEq : List Char → List Char
  | [] => []
  | '=' :: '=' :: c :: rest2 =>
    if c.isDigit then '>' :: '=' :: c :: subEqEq rest2
    else '=' :: subEqEq ('=' :: c :: rest2)
  | c :: rest => c :: subEqEq rest
termination_by l => l.length
decreasing_by
  all_goals simp [List.length_cons]
  all_goals omega

/-- `_requirements_to_dependencies` (py_utils.py lines 359-375): take
each requirement spec, cut at `;` (environment markers), strip, loosen
`==N` pins to `>=N`, and keep the nonempty results. -/
def requirements_to_dependencies (reqFile : Option (List String)) : List String :=
  (get_requirements_packages reqFile).foldl
    (fun deps spec0 =>
      let s0 := pyStrip ((pySplitChar ';' spec0).headD "")
      let s1 : String := ⟨subEqEq s0.data⟩
      if s1 != "" then deps ++ [s1] else deps) []

/-- `generate_pyproject_toml` (py_utils.py lines 311-356).  Environment
inputs: `cwdName` is `Path.cwd().name`, `pvFileContent` the raw
`.python-version` content, `reqFile` the lines of `requirements.txt`;
the remaining three are the Python keyword arguments (`none` = `None`).
When the effective python version is truthy but has fewer than two
dot-separated parts, `parts[1]` raises an uncaught `IndexError`
(`Except.error`). -/
def generate_pyproject_toml (cwdName : String) (pvFileContent : Option String)
    (reqFile : Option (List String)) (project_name : Option String)
    (python_version : Option String) (dependencies : Option (List String)) :
    Except Unit String :=
  let pn0 := match project_name with | none => cwdName | some n => n
  let pn := sanitize_project_name pn0
  let pv := match python_version with
    | none => get_python_version_file pvFileContent
    | some v => some v
  match (match pv with
         | some v =>
           if v = "" then Except.ok ">=3.12"
           else
             match pySplitChar '.' v with
             | p0 :: p1 :: _ => Except.ok (">=" ++ p0 ++ "." ++ p1)
             | _ => Except.error ()
         | none => Except.ok ">=3.12") with
  | Except.error e => Except.error e
  | Except.ok requires_python =>
    let deps := match dependencies with
      | none => requirements_to_dependencies reqFile
      | some d => d
    let deps_block := match deps with
      | [] => "dependencies = []"
      | _ => "dependencies = [\n"
          ++ String.intercalate "\n" (deps.map (fun dep => "    \"" ++ dep ++ "\","))
          ++ "\n]"
    Except.ok ("[project]\nname = \"" ++ pn ++ "\"\nversion = \"0.1.0\"\n"
      ++ "requires-python = \"" ++ requires_python ++ "\"\n" ++ deps_block ++ "\n")

theorem strAppend_assoc (a b c : String) : a ++ b ++ c = a ++ (b ++ c) := by
  cases a with
  | mk da =>
    cases b with
    | mk db =>
      cases c with
      | mk dc =>
        show String.mk ((da ++ db) ++ dc) = String.mk (da ++ (db ++ dc))
        rw [List.append_assoc]

/-- C10: for every non-`None` `python_version` splitting on `.` into at
least two components, `generate_pyproject_toml` returns content whose
`requires-python` value is `>=` followed by the first two components
joined by `.`; a dotless `python_version` such as `"3"` falls outside
that precondition and the `parts[1]` access raises `IndexError`. -/
theorem generate_pyproject_toml_requires_python :
    (∀ (cwdName : String) (pvF : Option String) (reqF : Option (List String))
       (pn : Option String) (deps : Option (List String))
       (pv p0 p1 : String) (rest : List String),
       pySplitChar '.' pv = p0 :: p1 :: rest →
       ∃ content,
         generate_pyproject_toml cwdName pvF reqF pn (some pv) deps = Except.ok content
         ∧ ∃ before after,
             content
               = before ++ ("requires-python = \"" ++ (">=" ++ p0 ++ "." ++ p1) ++ "\"\n") ++ after)
    ∧ (∀ (cwdName : String) (pvF : Option String) (reqF : Option (List String))
         (pn : Option String) (deps : Option (List String)),
         generate_pyproject_toml cwdName pvF reqF pn (some "3") deps = Except.error ()) := by
  constructor
  · intro cwdName pvF reqF pn deps pv p0 p1 rest hsplit
    have hpv : ¬(pv = "") := by
      intro hEq
      subst hEq
      have : pySplitChar '.' "" = [""] := rfl
      rw [this] at hsplit
      simp at hsplit
    simp only [generate_pyproject_toml, if_neg hpv, hsplit]
    refine ⟨_, rfl, ?_⟩
    refine ⟨"[project]\nname = \""
      ++ sanitize_project_name (match pn with | none => cwdName | some n => n)
      ++ "\"\nversion = \"0.1.0\"\n", ?_⟩
    refine ⟨(match (match deps with
              | none => requirements_to_dependencies reqF
              | some d => d) with
            | [] => "dependencies = []"
            | _ => "dependencies = [\n"
                ++ String.intercalate "\n"
                    ((match deps with
                      | none => requirements_to_dependencies reqF
                      | some d => d).map (fun dep => "    \"" ++ dep ++ "\","))
                ++ "\n]") ++ "\n", ?_⟩
    simp only [strAppend_assoc]
  · intro cwdName pvF reqF pn deps
    rfl

/-- Witness for C10 at `python_version = "3.13.6"`. -/
theorem generate_pyproject_toml_requires_python_witness :
    ∃ content,
      generate_pyproject_toml "app" none none none (some "3.13.6") (some [])
        = Except.ok content
      ∧ ∃ before after,
          content
            = before ++ ("requires-python = \"" ++ (">=" ++ "3" ++ "." ++ "13") ++ "\"\n") ++ after :=
  generate_pyproject_toml_requires_python.1 "app" none none none (some [])
    "3.13.6" "3" "13" ["6"] rfl

/-- The uv installation hint of diagnose_py.py lines 16-20 (POSIX
variant; on Windows only the message text differs). -/
def UV_INSTALL_HINT : String :=
  "uv not installed — install: curl -LsSf https://astral.sh/uv/install.sh | sh"

/-- The non-exact `.python-version` issue text of diagnose_py.py lines
72-80, with the optional `requires-python` hint. -/
def diagnose_pv_issue (v : String) (requiresPy : Option String) : String :=
  let hint := match requiresPy with
    | some rp => if rp ≠ "" then " | pyproject.toml requires-python: " ++ rp else ""
    | none => ""
  ".python-version uses \x27" ++ v
    ++ "\x27 — Posit Connect needs exact version (e.g. " ++ v
    ++ ".6). Set to the version on your Connect server" ++ hint

/-- The gitignore message used by both scripts (diagnose_py.py line 120,
pre_deploy_check_py.py line 45). -/
def gitignore_issue (agentDir : String) : String :=
  "Add \x27" ++ agentDir ++ "/\x27 to .gitignore to avoid committing agent skill files"

/-- Environment a `diagnose_py.py` run observes.  `pvFileContent` is the
raw `.python-version` content (`none` = missing), `interpVersion` the
running interpreter version, `pyprojectRequiresPython` the result of
`get_pyproject_requires_python` (that function catches all its
exceptions, so it is modelled as an input), the booleans are
`check_command` / `check_skill_dir_gitignored` results, and `manifest` /
`requirements` the two files.  `--verbose` and the `run_command` version
calls only affect printed text, not the issue list. -/
structure DiagEnv where
  helpRequested : Bool
  pvFileContent : Option String
  interpVersion : String
  pyprojectRequiresPython : Option String
  uvInstalled : Bool
  rsconnectInstalled : Bool
  uvxInstalled : Bool
  skillGitignored : Bool
  agentDir : Option String
  manifest : FileRead
  requirements : Option (List String)

/-- The issue list accumulated by a non-`--help` run of
`diagnose_py.py` (sections at lines 61-203), in program order:
non-exact `.python-version`, missing uv, missing rsconnect (only when
uvx is also absent), gitignore, missing `requirements.txt`, missing
`manifest.json`, then the manifest version checks.  The four manifest
readers run whenever `manifest.json` exists and may raise; a non-string
manifest Python version raises at `manifest_py_ver.split(".")`. -/
def diagnose_checks (e : DiagEnv) : Except Unit (List String) :=
  let raw_pv := get_python_version_file e.pvFileContent
  let local_version := get_local_python_version e.pvFileContent e.interpVersion
  let issues : List String :=
    match raw_pv with
    | some v =>
      if !is_exact_python_version v then [diagnose_pv_issue v e.pyprojectRequiresPython]
      else []
    | none => []
  let issues := if !e.uvInstalled then issues ++ [UV_INSTALL_HINT] else issues
  let issues :=
    if !e.rsconnectInstalled && !e.uvxInstalled then
      issues ++ ["rsconnect-python not installed — install: uv tool install rsconnect-python"]
    else issues
  let issues :=
    match e.agentDir with
    | some d =>
      if d ≠ "" && !e.skillGitignored then issues ++ [gitignore_issue d] else issues
    | none => issues
  let issues :=
    if !e.requirements.isSome then
      issues ++ ["requirements.txt missing — run: uv export --no-hashes -o requirements.txt"]
    else issues
  let issues :=
    if !e.manifest.exist then
      issues ++ ["manifest.json missing — run: rsconnect write-manifest <type> ."]
    else issues
  if e.manifest.exist then
    match parse_manifest_python_version e.manifest with
    | Except.error err => Except.error err
    | Except.ok mv =>
      match get_manifest_content_type e.manifest with
      | Except.error err => Except.error err
      | Except.ok _ =>
        match get_manifest_entrypoint e.manifest with
        | Except.error err => Except.error err
        | Except.ok _ =>
          match get_manifest_allow_uv e.manifest with
          | Except.error err => Except.error err
          | Except.ok _ =>
            if pyTruthy mv && local_version ≠ "" then
              match mv with
              | Json.str s => Except.ok (issues ++ diagnose_version_issues s local_version)
              | _ => Except.error ()
            else Except.ok issues
  else Except.ok issues

/-- The exit code of `diagnose_py.py`: 0 for `--help`, else 0 when no
issue was recorded and 1 otherwise (lines 48-59 and 226-239). -/
def diagnose_exit (e : DiagEnv) : Except Unit Nat :=
  if e.helpRequested then Except.ok 0
  else
    match diagnose_checks e with
    | Except.error err => Except.error err
    | Except.ok issues => Except.ok (if issues.isEmpty then 0 else 1)

/-- Environment a `pre_deploy_check_py.py` run observes; fields as in
`DiagEnv`, plus the two file modification times for Check 8 and the
display path of the regenerate script used in several messages. -/
structure PreEnv where
  pyprojectExists : Bool
  pyprojectRequiresPython : Option String
  manifest : FileRead
  requirements : Option (List String)
  uvInstalled : Bool
  rsconnectInstalled : Bool
  uvxInstalled : Bool
  pvFileContent : Option String
  interpVersion : String
  skillGitignored : Bool
  agentDir : Option String
  manifestMtime : Int
  requirementsMtime : Int
  regenScriptDisplay : String

/-- The mutable state of the pre-deploy script: the `passed` flag and
the accumulated `issues` and `warnings` lists. -/
structure CheckState where
  passed : Bool
  issues : List String
  warnings : List String

/-- Preliminary gitignore check (pre_deploy_check_py.py lines 42-46):
warning only. -/
def pre_gitignore_step (e : PreEnv) (st : CheckState) : CheckState :=
  match e.agentDir with
  | some d =>
    if !e.skillGitignored && d ≠ "" then
      { st with warnings := st.warnings ++ [gitignore_issue d] }
    else st
  | none => st

/-- Check 1 (lines 49-62): pyproject.toml presence (issue) and
requires-python presence (warning). -/
def check1_project_file (e : PreEnv) (st : CheckState) : CheckState :=
  if e.pyprojectExists then
    match e.pyprojectRequiresPython with
    | some rp =>
      if rp ≠ "" then st
      else { st with warnings :=
        st.warnings ++ ["Add requires-python to pyproject.toml [project] section"] }
    | none =>
      { st with warnings :=
        st.warnings ++ ["Add requires-python to pyproject.toml [project] section"] }
  else
    { st with
      passed := false
      issues := st.issues
        ++ ["No pyproject.toml — regenerate manifest to auto-create, or run: uv init"] }

/-- Check 2 (lines 65-71): manifest.json presence. -/
def check2_manifest_file (e : PreEnv) (st : CheckState) : CheckState :=
  if e.manifest.exist then st
  else
    { st with
      passed := false
      issues := st.issues ++ ["Run: python " ++ e.regenScriptDisplay] }

/-- Check 3 (lines 74-81): requirements.txt presence. -/
def check3_requirements_file (e : PreEnv) (st : CheckState) : CheckState :=
  if e.requirements.isSome then st
  else
    { st with
      passed := false
      issues := st.issues ++ ["Run: uv export --no-hashes -o requirements.txt"] }

/-- Check 4 (lines 84-90): uv availability. -/
def check4_uv_installed (e : PreEnv) (st : CheckState) : CheckState :=
  if e.uvInstalled then st
  else
    { st with
      passed := false
      issues := st.issues ++ ["Install uv: curl -LsSf https://astral.sh/uv/install.sh | sh"] }

/-- Check 5 (lines 93-103): rsconnect, with uvx as warning-only
fallback. -/
def check5_rsconnect (e : PreEnv) (st : CheckState) : CheckState :=
  if e.rsconnectInstalled then st
  else if e.uvxInstalled then
    { st with warnings := st.warnings ++ ["Consider: uv tool install rsconnect-python"] }
  else
    { st with
      passed := false
      issues := st.issues ++ ["Install: uv tool install rsconnect-python"] }

/-- The non-exact `.python-version` warning text of
pre_deploy_check_py.py lines 112-121. -/
def pre_deploy_pv_warning (v : String) (requiresPy : Option String) : String :=
  let hint := match requiresPy with
    | some rp => if rp ≠ "" then " (pyproject.toml requires-python: " ++ rp ++ ")" else ""
    | none => ""
  ".python-version uses \x27" ++ v
    ++ "\x27 — Posit Connect needs exact version (e.g. " ++ v
    ++ ".6). Set to the version on your Connect server" ++ hint

/-- Check 6 (lines 106-124): `.python-version` exactness, warnings
only. -/
def check6_version_pinning (e : PreEnv) (st : CheckState) : CheckState :=
  match get_python_version_file e.pvFileContent with
  | some v =>
    if is_exact_python_version v then st
    else { st with warnings :=
      st.warnings ++ [pre_deploy_pv_warning v e.pyprojectRequiresPython] }
  | none =>
    { st with warnings := st.warnings
      ++ ["Create .python-version with exact version matching your Connect server (e.g. 3.12.7)"] }

/-- Check 7 (lines 126-151): Python version match, warning only; the
manifest reader may raise, and a truthy non-string manifest version
raises at `.split(".")` after the `==` comparison fails. -/
def check7_version_match (e : PreEnv) (st : CheckState) : Except Unit CheckState :=
  match parse_manifest_python_version e.manifest with
  | Except.error err => Except.error err
  | Except.ok mv =>
    let local_version := get_local_python_version e.pvFileContent e.interpVersion
    if pyTruthy mv && local_version ≠ "" then
      match mv with
      | Json.str s =>
        Except.ok { st with warnings :=
          st.warnings ++ pre_deploy_version_warnings s local_version }
      | _ => Except.error ()
    else Except.ok st

/-- Check 8 (lines 154-167): manifest freshness, warning only. -/
def check8_manifest_freshness (e : PreEnv) (st : CheckState) : CheckState :=
  if e.manifest.exist && e.requirements.isSome then
    if e.manifestMtime ≥ e.requirementsMtime then st
    else { st with warnings := st.warnings ++ ["Consider: python " ++ e.regenScriptDisplay] }
  else st

/-- Check 9 (lines 169-184): allow_uv status, warnings only; the
manifest reader may raise.  `allow_uv is True` / `is False` are Python
identity tests, so any non-boolean stored value falls to the
`not set` branch. -/
def check9_allow_uv (e : PreEnv) (st : CheckState) : Except Unit CheckState :=
  match get_manifest_allow_uv e.manifest with
  | Except.error err => Except.error err
  | Except.ok au =>
    match au with
    | Json.bool true => Except.ok st
    | Json.bool false =>
      Except.ok { st with warnings :=
        st.warnings ++ ["allow_uv is false — Connect will use pip instead of uv"] }
    | _ =>
      if e.manifest.exist then
        Except.ok { st with warnings := st.warnings
          ++ ["Set allow_uv: true in manifest for faster installs — run: python "
              ++ e.regenScriptDisplay] }
      else Except.ok st

/-- The full pre-deploy check sequence (pre_deploy_check_py.py lines
34-184), from the initial state `passed = True`, no issues, no
warnings. -/
def pre_deploy_checks (e : PreEnv) : Except Unit CheckState :=
  match check7_version_match e
      (check6_version_pinning e (check5_rsconnect e (check4_uv_installed e
        (check3_requirements_file e (check2_manifest_file e (check1_project_file e
          (pre_gitignore_step e ⟨true, [], []⟩))))))) with
  | Except.error err => Except.error err
  | Except.ok st7 => check9_allow_uv e (check8_manifest_freshness e st7)

/-- The exit code of `pre_deploy_check_py.py` (lines 186-203): 0 when
`passed` is still true, 1 otherwise. -/
def pre_deploy_exit (e : PreEnv) : Except Unit Nat :=
  match pre_deploy_checks e with
  | Except.error err => Except.error err
  | Except.ok st => Except.ok (if st.passed then 0 else 1)

/-- The invariant tying `passed` to the issue list. -/
def issuesInv (st : CheckState) : Prop := st.passed = true ↔ st.issues = []

theorem issuesInv_fail (st : CheckState) (msg : String) :
    issuesInv ⟨false, st.issues ++ [msg], st.warnings⟩ :=
  ⟨fun hc => absurd hc (by simp), fun hc => absurd hc (by simp)⟩

theorem pre_gitignore_step_inv (e : PreEnv) (st : CheckState) (h : issuesInv st) :
    issuesInv (pre_gitignore_step e st) := by
  unfold pre_gitignore_step
  split
  · split
    · exact h
    · exact h
  · exact h

theorem check1_project_file_inv (e : PreEnv) (st : CheckState) (h : issuesInv st) :
    issuesInv (check1_project_file e st) := by
  unfold check1_project_file
  split
  · split
    · split
      · exact h
      · exact h
    · exact h
  · exact issuesInv_fail st _

theorem check2_manifest_file_inv (e : PreEnv) (st : CheckState) (h : issuesInv st) :
    issuesInv (check2_manifest_file e st) := by
  unfold check2_manifest_file
  split
  · exact h
  · exact issuesInv_fail st _

theorem check3_requirements_file_inv (e : PreEnv) (st : CheckState) (h : issuesInv st) :
    issuesInv (check3_requirements_file e st) := by
  unfold check3_requirements_file
  split
  · exact h
  · exact issuesInv_fail st _

theorem check4_uv_installed_inv (e : PreEnv) (st : CheckState) (h : issuesInv st) :
    issuesInv (check4_uv_installed e st) := by
  unfold check4_uv_installed
  split
  · exact h
  · exact issuesInv_fail st _

theorem check5_rsconnect_inv (e : PreEnv) (st : CheckState) (h : issuesInv st) :
    issuesInv (check5_rsconnect e st) := by
  unfold check5_rsconnect
  split
  · exact h
  · split
    · exact h
    · exact issuesInv_fail st _

theorem check6_version_pinning_inv (e : PreEnv) (st : CheckState) (h : issuesInv st) :
    issuesInv (check6_version_pinning e st) := by
  unfold check6_version_pinning
  split
  · split
    · exact h
    · exact h
  · exact h

theorem check7_version_match_inv (e : PreEnv) (st st' : CheckState)
    (h7 : check7_version_match e st = Except.ok st') (h : issuesInv st) :
    issuesInv st' := by
  unfold check7_version_match at h7
  split at h7
  · cases h7
  · dsimp only [] at h7
    split at h7
    · split at h7
      · cases h7; exact h
      · cases h7
    · cases h7; exact h

theorem check8_manifest_freshness_inv (e : PreEnv) (st : CheckState) (h : issuesInv st) :
    issuesInv (check8_manifest_freshness e st) := by
  unfold check8_manifest_freshness
  split
  · split
    · exact h
    · exact h
  · exact h

theorem check9_allow_uv_inv (e : PreEnv) (st st' : CheckState)
    (h9 : check9_allow_uv e st = Except.ok st') (h : issuesInv st) :
    issuesInv st' := by
  unfold check9_allow_uv at h9
  split at h9
  · cases h9
  · split at h9
    · cases h9; exact h
    · cases h9; exact h
    · split at h9
      · cases h9; exact h
      · cases h9; exact h

theorem pre_deploy_checks_inv (e : PreEnv) (st : CheckState)
    (h : pre_deploy_checks e = Except.ok st) : issuesInv st := by
  unfold pre_deploy_checks at h
  have h0 : issuesInv ⟨true, [], []⟩ := by simp [issuesInv]
  have h6 := check6_version_pinning_inv e _
    (check5_rsconnect_inv e _ (check4_uv_installed_inv e _
      (check3_requirements_file_inv e _ (check2_manifest_file_inv e _
        (check1_project_file_inv e _ (pre_gitignore_step_inv e _ h0))))))
  split at h
  · cases h
  · next st7 hc7 =>
    exact check9_allow_uv_inv e _ _ h
      (check8_manifest_freshness_inv e _ (check7_version_match_inv e _ _ hc7 h6))

/-- C1: for every run of `diagnose_py.py` and of
`pre_deploy_check_py.py` that completes its checks (not `--help`, and
no exception escapes), the exit code is 0 exactly when no issue was
recorded and 1 exactly when at least one was; warnings never affect the
exit code, which depends only on the issue list. -/
theorem exit_code_contract :
    (∀ (e : DiagEnv), e.helpRequested = false →
       ∀ issues, diagnose_checks e = Except.ok issues →
         (diagnose_exit e = Except.ok 0 ↔ issues = [])
         ∧ (diagnose_exit e = Except.ok 1 ↔ issues ≠ []))
    ∧ (∀ (e : PreEnv) (st : CheckState), pre_deploy_checks e = Except.ok st →
         (pre_deploy_exit e = Except.ok 0 ↔ st.issues = [])
         ∧ (pre_deploy_exit e = Except.ok 1 ↔ st.issues ≠ [])) := by
  constructor
  · intro e hhelp issues hchecks
    unfold diagnose_exit
    rw [if_neg (by simp [hhelp]), hchecks]
    cases issues with
    | nil => simp
    | cons i rest => simp
  · intro e st hchecks
    have hinv := pre_deploy_checks_inv e st hchecks
    unfold pre_deploy_exit
    rw [hchecks]
    unfold issuesInv at hinv
    cases hp : st.passed with
    | true => simp [hp, hinv.mp hp]
    | false =>
      have hne : ¬(st.issues = []) := fun hnil => by
        rw [hinv.mpr hnil] at hp; cases hp
      simp [hp, hne]

/-- A concrete healthy environment for a diagnose run. -/
def exampleDiagEnv : DiagEnv :=
  { helpRequested := false
    pvFileContent := some "3.13.6\n"
    interpVersion := "3.13.6"
    pyprojectRequiresPython := some ">=3.13"
    uvInstalled := true
    rsconnectInstalled := true
    uvxInstalled := true
    skillGitignored := true
    agentDir := some ".claude"
    manifest := .parsed (Json.obj
      [("metadata", Json.obj
          [("appmode", Json.str "python-fastapi"), ("entrypoint", Json.str "app:app")]),
       ("python", Json.obj
          [("version", Json.str "3.13.6"),
           ("package_manager", Json.obj [("allow_uv", Json.bool true)])])])
    requirements := some ["fastapi==0.115.0", "", "# comment"] }

/-- A concrete healthy environment for a pre-deploy run. -/
def examplePreEnv : PreEnv :=
  { pyprojectExists := true
    pyprojectRequiresPython := some ">=3.13"
    manifest := exampleDiagEnv.manifest
    requirements := some ["fastapi==0.115.0"]
    uvInstalled := true
    rsconnectInstalled := true
    uvxInstalled := true
    pvFileContent := some "3.13.6\n"
    interpVersion := "3.13.6"
    skillGitignored := true
    agentDir := some ".claude"
    manifestMtime := 2
    requirementsMtime := 1
    regenScriptDisplay := "scripts/regenerate_manifest_py.py" }

/-- Witness for C1: both scripts exit 0 on a healthy environment that
records no issues. -/
theorem exit_code_contract_witness :
    diagnose_exit exampleDiagEnv = Except.ok 0
    ∧ pre_deploy_exit examplePreEnv = Except.ok 0 := by
  constructor
  · exact ((exit_code_contract.1 exampleDiagEnv rfl [] (by rfl)).1).mpr rfl
  · exact ((exit_code_contract.2 examplePreEnv ⟨true, [], []⟩ (by rfl)).1).mpr rfl

end Rsconnect
